import Mathlib

/-!
Shallow embedding of the dataPlot repository (dataPlot.py and manData.py),
with theorems checking the natural-language specification against the code.

The embedding models:
  * `combine_csv_files` from manData.py: splicing line ranges of CSV files
    into a destination file, with Python slice semantics;
  * `subplots_ajdust` and `plot_line2D` from dataPlot.py: figure building,
    the per-line data resolver with its file cache, the subplot renderer
    (lines, secondary axes, span shading, legends) and the output writer.

File systems are modelled as functions from path to optional contents;
Python exceptions are modelled with `Except`; Python dictionaries are
association lists (mutation of a key keeps its position, as CPython does).
-/

/-! ## Association-list dictionaries -/

/-- Lookup in an association list (Python `d[k]` / `d.get(k)`). -/
def alist_get {α β : Type} [DecidableEq α] : List (α × β) → α → Option β
  | [], _ => none
  | (k2, v) :: t, k => if k2 = k then some v else alist_get t k

/-- Python `d[k] = v`: replace in place if the key exists, else append
(CPython dictionaries keep the original position of an overwritten key). -/
def dict_set {α β : Type} [DecidableEq α] : List (α × β) → α → β → List (α × β)
  | [], k, v => [(k, v)]
  | (k2, v2) :: t, k, v => if k2 = k then (k, v) :: t else (k2, v2) :: dict_set t k v

/-- Python `k in d` (membership tests keys, not values). -/
def dictHasKey {α β : Type} [DecidableEq α] (d : List (α × β)) (k : α) : Bool :=
  (alist_get d k).isSome

/-! ## manData.py : combine_csv_files -/

/-- Every `k`-th element of a list, starting at the first
(the effect of a Python slice step on an already-sliced list). -/
def everyNth {α : Type} (l : List α) (k : Nat) : List α :=
  (l.enum.filter (fun p => p.1 % k == 0)).map Prod.snd

/-- One range descriptor of `combine_csv_files`: the tuple
`(csv_file_name, line_start, line_end)` with optional fourth element
`line_step` (absent models a 3-tuple). -/
structure RangeDesc where
  csv_file_name : String
  line_start : Nat
  line_end : Nat
  line_step : Option Nat := none
deriving DecidableEq

/-- The body of the `with open` block of `combine_csv_files` for one
descriptor: clamp `line_end` to `len(lines)-1` when `len(lines) < line_end`,
then take the Python slice `lines[line_start:line_end+1:line_step]`
(slice bounds clamp silently; a clamped end of `-1` yields stop `0`). -/
def processRange (lines : List String) (lstart l_end : Nat) (lstep : Nat) : List String :=
  let e : Int := if (lines.length : Int) < (l_end : Int) then (lines.length : Int) - 1 else (l_end : Int)
  let b : Nat := (e + 1).toNat
  if lstep > 1 then everyNth ((lines.take b).drop lstart) lstep
  else (lines.take b).drop lstart

/-- `combine_csv_files(new_csv_file, csv_files)` from manData.py.
`fsys` maps a source path to its list of lines (`none` = file absent,
raising `FileNotFoundError`, modelled as `.error path`); `dest` is the
destination file's prior contents (`none` = it does not exist).  The
destination is removed first if it exists, then each descriptor's selected
lines are appended in order (append mode creates the file). -/
def combine_csv_files (fsys : String → Option (List String)) (dest : Option (List String))
    (csv_files : List RangeDesc) : Except String (Option (List String)) :=
  let d0 : Option (List String) := none
  csv_files.foldlM (fun acc csv_file =>
    match fsys csv_file.csv_file_name with
    | none => .error csv_file.csv_file_name
    | some lines =>
        .ok (some (acc.getD [] ++
          processRange lines csv_file.line_start csv_file.line_end (csv_file.line_step.getD 1))))
    d0

/-- The file system used in the round-trip example: `a.csv` holds `A`,
`b.csv` holds `B`. -/
def fsAB (A B : List String) : String → Option (List String) :=
  fun p => if p = "a.csv" then some A else if p = "b.csv" then some B else none

/-! ## dataPlot.py : data model -/

/-- A Python dictionary key as it occurs in the resolver's bookkeeping
dictionaries: `data_files` and `data_file_names` are keyed by the integer
`nfiles`, while the membership test `path not in data_file_names` probes a
string; an integer key never equals a string. -/
inductive PyKey where
  | int (n : Nat)
  | str (s : String)
deriving DecidableEq

/-- A loaded CSV table: column name to column values (data modelled over ℤ). -/
abbrev Column := List Int
abbrev Table := List (String × Column)

/-- The storage layer: path to loaded table (`none` = missing file). -/
abbrev FileSys := String → Option Table

/-- Errors raised by `plot_line2D`. -/
inductive PlotErr where
  | valueError (msg : String)
  | fileNotFound (path : String)
  | keyError (k : String)
  | indexError
deriving DecidableEq

/-- One entry of `line_cfg`: the keys read by `plot_line2D`.
`none` models an absent key. -/
structure LineData where
  xdata : Option (String × String) := none
  xdata_array : Option Column := none
  ydata : Option (String × String) := none
  ydata_array : Option Column := none
  rightYAxis : Option String := none
  ylim_right : Option (Int × Int) := none
  rightYAxis_percentage : Bool := false
  color : Option String := none
  linestyle : Option String := none
  marker : Option String := none
  markevery : Option Nat := none
  label : Option String := none
deriving DecidableEq

/-- One entry of `plot_cfg`: the keys read by `plot_line2D`. -/
structure PlotData where
  xlabel : Option String := none
  ylabel : Option String := none
  xlim : Option (Int × Int) := none
  ylim : Option (Int × Int) := none
  xscale : Option String := none
  yscale : Option String := none
  xticks : Option (List Int) := none
  yticks : Option (List Int) := none
  xticks_percentage : Bool := false
  yticks_percentage : Bool := false
  show_grid : Option String := none
  grid_axis : Option String := none
  title : Option String := none
  title_y : Option Rat := none
  line : List Nat := []
  legend : Option (List Nat) := none
  legends_position : Option String := none
  lgdncol : Option Nat := none
  bbox_to_anchor : Option (Int × Int) := none
  xspan : Option (List Int) := none
  yspan : Option (List Int) := none
deriving DecidableEq

/-- `fig_cfg`: the keys read by `subplots_ajdust` and `plot_line2D`. -/
structure FigCfg where
  num_rows : Option Nat := none
  num_cols : Option Nat := none
  width : Option Rat := none
  height : Option Rat := none
  fig_title : Option String := none
  title_y : Option Rat := none
  fontsize : Option Nat := none
  left : Option Rat := none
  right : Option Rat := none
  bottom : Option Rat := none
  top : Option Rat := none
  wspace : Option Rat := none
  hspace : Option Rat := none
  legend_id : Option (List Nat) := none
  file_path : Option String := none
  filename : Option String := none
  fig_format : Option String := none
deriving DecidableEq

/-- A drawn `Line2D` handle, as returned by `ax.plot`:  `hid` is a fresh
identifier making handles distinct, `line_id` records which `line_cfg`
entry produced it, the remaining fields are the arguments of the
`ax.plot(...)` call with the source's defaults. -/
structure Line2DH where
  hid : Nat
  line_id : Nat
  xdata : Column
  ydata : Column
  color : String
  linestyle : String
  marker : Option String
  markevery : Nat
  label : Option String
deriving DecidableEq

/-- The last `ax.legend(...)` call on an axis.  A call with
`handles=`/`loc=`/`ncol=` records them; a later call with only
`bbox_to_anchor=` replaces the legend with the axis's default handles. -/
structure LegendState where
  handles : List Line2DH
  loc : String
  ncol : Nat
  bbox : Option (Int × Int)
deriving DecidableEq

/-- The state of one matplotlib axis as far as plot_line2D touches it.
`ylim_set` is an explicit `set_ylim`; `ybounds` are the y data bounds of
drawn artists, from which autoscaled limits derive when `ylim_set` is
absent. -/
structure AxisState where
  aid : Nat := 0
  xlabel : Option String := none
  ylabel : Option String := none
  xlim : Option (Int × Int) := none
  ylim_set : Option (Int × Int) := none
  xscale : String := "linear"
  yscale : String := "linear"
  xticks : Option (List Int) := none
  yticks : Option (List Int) := none
  x_percent : Bool := false
  y_percent : Bool := false
  title : Option (String × Rat) := none
  grid_on : Option (String × String) := none
  drawnLines : List Line2DH := []
  ybounds : Option (Int × Int) := none
  legend : Option LegendState := none
deriving DecidableEq

/-! ## dataPlot.py : axis primitives -/

/-- Python truthiness of an optional string value (`''` and an absent key
are falsy). -/
def truthyStr (o : Option String) : Bool :=
  match o with
  | some s => if s = "" then false else true
  | none => false

/-- Python truthiness of an optional list value (`[]` and an absent key
are falsy). -/
def truthyList {α : Type} (o : Option (List α)) : Bool :=
  match o with
  | some l => if l.isEmpty then false else true
  | none => false

/-- Union of two optional closed intervals. -/
def mergeBounds : Option (Int × Int) → Option (Int × Int) → Option (Int × Int)
  | none, b => b
  | some a, none => some a
  | some (l1, h1), some (l2, h2) => some (min l1 l2, max h1 h2)

/-- The y data bounds contributed by one plotted series. -/
def dataBounds (ys : Column) : Option (Int × Int) :=
  match ys with
  | [] => none
  | y :: t => some (t.foldl min y, t.foldl max y)

/-- `ax.get_ylim()`: the explicit limits when set, else autoscaled from the
drawn data bounds, else matplotlib's initial `(0, 1)`. -/
def get_ylim (ax : AxisState) : Int × Int :=
  ax.ylim_set.getD (ax.ybounds.getD (0, 1))

/-- `ax.set_ylim(p)`. -/
def set_ylim (ax : AxisState) (p : Int × Int) : AxisState :=
  { ax with ylim_set := some p }

/-- `ax.plot(...)`: append the new artist and grow the data bounds. -/
def plotOnAxis (ax : AxisState) (h : Line2DH) : AxisState :=
  { ax with drawnLines := ax.drawnLines ++ [h],
            ybounds := mergeBounds ax.ybounds (dataBounds h.ydata) }

/-- `ax.fill_between(xspan, y1, y2, where=mask, ...)`: when the mask holds
somewhere, the filled region's y extent joins the axis data bounds (which
may move autoscaled limits). -/
def fill_between (ax : AxisState) (xs : List Int) (y1 y2 : Int) (mask : List Bool) : AxisState :=
  if mask.any id then
    { ax with ybounds := mergeBounds ax.ybounds (some (min y1 y2, max y1 y2)) }
  else ax

/-- Whether a label string starts with an underscore (matplotlib's marker
for labels hidden from legends). -/
def underscoreFirst (s : String) : Bool :=
  match s.data with
  | [] => false
  | c :: _ => c == '_'

/-- The labelled artists a bare `ax.legend(...)` call collects: drawn lines
of this axis whose label is set and does not start with an underscore
(an unlabelled line gets a private `_childN` label and is excluded). -/
def defaultHandles (ax : AxisState) : List Line2DH :=
  ax.drawnLines.filter (fun h =>
    match h.label with
    | some s => !(underscoreFirst s)
    | none => false)

/-- `ax.get_legend_handles_labels()`. -/
def get_legend_handles_labels (ax : AxisState) : List Line2DH × List String :=
  let hs := defaultHandles ax
  (hs, hs.map (fun h => h.label.getD ""))

/-- Python list indexing `l[i]`, with negative indices counting from the
end; out of range is an `IndexError` (`none`). -/
def pyNorm (len : Nat) (i : Int) : Option Nat :=
  let j := if i < 0 then i + (len : Int) else i
  if 0 ≤ j ∧ j < (len : Int) then some j.toNat else none

def pyIndex {α : Type} (l : List α) (i : Int) : Option α :=
  (pyNorm l.length i).bind (fun n => l[n]?)

/-- Writing back a mutated element at a Python index. -/
def pyIndexSet {α : Type} (l : List α) (i : Int) (v : α) : List α :=
  match pyNorm l.length i with
  | some n => l.set n v
  | none => l

/-! ## dataPlot.py : subplots_ajdust -/

/-- The figure state produced by `subplots_ajdust`: layout parameters and
the flattened `rows * cols` grid of axes (`squeeze=False` always yields a
2D grid; the renderer immediately flattens it). -/
structure FigState where
  rows : Nat
  cols : Nat
  width : Rat
  height : Rat
  fontsize : Nat
  left : Rat
  right : Rat
  bottom : Rat
  top : Rat
  wspace : Rat
  hspace : Rat
  suptitle : String
  suptitle_y : Rat
  axes : List AxisState
deriving DecidableEq

/-- `subplots_ajdust(fig_cfg)` from dataPlot.py (defaults exactly as in the
source: `left=0.125`, `right=0.9`, `bottom=0.05`, `top=0.9`,
`wspace=0.2`, `hspace=0.2`, `num_rows=1`, `num_cols=1`, `width=6`,
`height=9`, `fontsize=10`, `fig_title=''`, `title_y=0.98`). -/
def subplots_ajdust (fig_cfg : FigCfg) : FigState :=
  let rows := fig_cfg.num_rows.getD 1
  let cols := fig_cfg.num_cols.getD 1
  { rows := rows
    cols := cols
    width := fig_cfg.width.getD 6
    height := fig_cfg.height.getD 9
    fontsize := fig_cfg.fontsize.getD 10
    left := fig_cfg.left.getD 0.125
    right := fig_cfg.right.getD 0.9
    bottom := fig_cfg.bottom.getD 0.05
    top := fig_cfg.top.getD 0.9
    wspace := fig_cfg.wspace.getD 0.2
    hspace := fig_cfg.hspace.getD 0.2
    suptitle := fig_cfg.fig_title.getD ""
    suptitle_y := fig_cfg.title_y.getD 0.98
    axes := (List.range (rows * cols)).map (fun i => { aid := i }) }

/-! ## dataPlot.py : the Data Resolver (plot_line2D, first loop) -/

/-- The resolver's bookkeeping: `data_files` maps the integer counter
`nfiles` to a loaded table, `data_file_names` maps it to the file path;
`reads` logs every `pd.read_csv` call (the storage read-count probe). -/
structure ResolverState where
  data_files : List (PyKey × Table) := []
  data_file_names : List (PyKey × String) := []
  nfiles : Nat := 0
  reads : List String := []
deriving DecidableEq

/-- `pd.read_csv(path)`. -/
def pdReadCsv (fs : FileSys) (path : String) : Except PlotErr Table :=
  match fs path with
  | some t => .ok t
  | none => .error (.fileNotFound path)

/-- Column lookup `table[col]` (a missing column raises `KeyError`). -/
def tableCol (t : Table) (c : String) : Except PlotErr Column :=
  match alist_get t c with
  | some col => .ok col
  | none => .error (.keyError c)

/-- The Python loop `for k, v in data_file_names.items(): if v == path`. -/
def findByValue : List (PyKey × String) → String → Option PyKey
  | [], _ => none
  | (k, v) :: t, p => if v = p then some k else findByValue t p

/-- The x branch of the resolver loop body.  Note the membership test
`line_data['xdata'][0] not in data_file_names` probes the dictionary's
KEYS (which are the integers `1..nfiles`) with a string path, exactly as
the source does. -/
def resolve_xdata (fs : FileSys) (st : ResolverState) (ld : LineData) :
    Except PlotErr (ResolverState × LineData) :=
  match ld.xdata with
  | some (path, colName) =>
    if dictHasKey st.data_file_names (PyKey.str path) then
      match findByValue st.data_file_names path with
      | some k =>
        match alist_get st.data_files k with
        | none => .error (.keyError path)
        | some tbl =>
          match tableCol tbl colName with
          | .error e => .error e
          | .ok c => .ok (st, { ld with xdata_array := some c })
      | none => .ok (st, ld)
    else
      match pdReadCsv fs path with
      | .error e => .error e
      | .ok tbl =>
        let n := st.nfiles + 1
        match tableCol tbl colName with
        | .error e => .error e
        | .ok c =>
          .ok ({ data_files := dict_set st.data_files (PyKey.int n) tbl,
                 data_file_names := dict_set st.data_file_names (PyKey.int n) path,
                 nfiles := n,
                 reads := st.reads ++ [path] },
               { ld with xdata_array := some c })
  | none =>
    match ld.xdata_array with
    | some _ => .ok (st, ld)
    | none => .error (.valueError "xdata or xdata_array is missing in line_cfg")

/-- The y branch (identical shape; in the source the name is recorded just
before the read rather than after, with the same observable effect). -/
def resolve_ydata (fs : FileSys) (st : ResolverState) (ld : LineData) :
    Except PlotErr (ResolverState × LineData) :=
  match ld.ydata with
  | some (path, colName) =>
    if dictHasKey st.data_file_names (PyKey.str path) then
      match findByValue st.data_file_names path with
      | some k =>
        match alist_get st.data_files k with
        | none => .error (.keyError path)
        | some tbl =>
          match tableCol tbl colName with
          | .error e => .error e
          | .ok c => .ok (st, { ld with ydata_array := some c })
      | none => .ok (st, ld)
    else
      match pdReadCsv fs path with
      | .error e => .error e
      | .ok tbl =>
        let n := st.nfiles + 1
        match tableCol tbl colName with
        | .error e => .error e
        | .ok c =>
          .ok ({ data_files := dict_set st.data_files (PyKey.int n) tbl,
                 data_file_names := dict_set st.data_file_names (PyKey.int n) path,
                 nfiles := n,
                 reads := st.reads ++ [path] },
               { ld with ydata_array := some c })
  | none =>
    match ld.ydata_array with
    | some _ => .ok (st, ld)
    | none => .error (.valueError "ydata or ydata_array is missing in line_cfg")

/-- One iteration of the resolver loop: x branch then y branch. -/
def resolveLine (fs : FileSys) (st : ResolverState) (ld : LineData) :
    Except PlotErr (ResolverState × LineData) :=
  match resolve_xdata fs st ld with
  | .error e => .error e
  | .ok (st1, ld1) => resolve_ydata fs st1 ld1

/-- The whole resolver loop over `line_cfg.items()` (insertion order),
returning the mutated `line_cfg` and the final bookkeeping state. -/
def resolveLinesGo (fs : FileSys) (st : ResolverState) :
    List (Nat × LineData) → Except PlotErr (List (Nat × LineData) × ResolverState)
  | [] => .ok ([], st)
  | (i, ld) :: rest =>
    match resolveLine fs st ld with
    | .error e => .error e
    | .ok (st1, ld1) =>
      match resolveLinesGo fs st1 rest with
      | .error e => .error e
      | .ok (rest1, stF) => .ok ((i, ld1) :: rest1, stF)

def resolveLines (fs : FileSys) (cfg : List (Nat × LineData)) :
    Except PlotErr (List (Nat × LineData) × ResolverState) :=
  resolveLinesGo fs {} cfg

/-! ## dataPlot.py : subplot rendering (plot_line2D, second loop) -/

/-- The axis settings block at the top of the subplot loop (labels, limits,
scales, ticks, percentage formatters, title, grid), each applied only under
the source's presence/truthiness test. -/
def applyPlotSettings (ax : AxisState) (pd : PlotData) : AxisState :=
  let ax := match pd.xlabel with | some s => { ax with xlabel := some s } | none => ax
  let ax := match pd.ylabel with | some s => { ax with ylabel := some s } | none => ax
  let ax := match pd.xlim with | some p => { ax with xlim := some p } | none => ax
  let ax := match pd.ylim with | some p => set_ylim ax p | none => ax
  let ax := { ax with xscale := pd.xscale.getD "linear", yscale := pd.yscale.getD "linear" }
  let ax := if truthyList pd.xticks then { ax with xticks := pd.xticks } else ax
  let ax := if truthyList pd.yticks then { ax with yticks := pd.yticks } else ax
  let ax := if pd.xticks_percentage then { ax with x_percent := true } else ax
  let ax := if pd.yticks_percentage then { ax with y_percent := true } else ax
  let ax := match pd.title with
    | some t => { ax with title := some (t, pd.title_y.getD 1) }
    | none => ax
  if truthyStr pd.show_grid then
    { ax with grid_on := some (pd.show_grid.getD "", pd.grid_axis.getD "both") }
  else ax

/-- The mutable state of the inner line loop: the primary axis, the
secondary axes created so far, the `handles` dictionary, and a fresh-id
counter for new artists/axes. -/
structure DrawState where
  ax : AxisState
  secondary : List AxisState
  handles : List (Nat × Line2DH)
  cnt : Nat
deriving DecidableEq

/-- The `ax.plot`/`ax2.plot` argument list with the source's defaults. -/
def mkHandle (cnt line_id : Nat) (ld : LineData) (xs ys : Column) : Line2DH :=
  { hid := cnt, line_id := line_id, xdata := xs, ydata := ys,
    color := ld.color.getD "b", linestyle := ld.linestyle.getD "-",
    marker := ld.marker, markevery := ld.markevery.getD 1, label := ld.label }

/-- One iteration of `for i, line_id in enumerate(plot_data.get('line', []))`:
look the line up, fetch its resolved arrays, and draw it — on a brand-new
`ax.twinx()` secondary axis when `rightYAxis` is truthy, else on the
primary axis. -/
def drawOne (cfg : List (Nat × LineData)) (st : DrawState) (line_id : Nat) :
    Except PlotErr DrawState :=
  match alist_get cfg line_id with
  | none => .error (.keyError (toString line_id))
  | some ld =>
    match ld.xdata_array with
    | none => .error (.keyError "xdata_array")
    | some xs =>
      match ld.ydata_array with
      | none => .error (.keyError "ydata_array")
      | some ys =>
        if truthyStr ld.rightYAxis then
          let ax2 : AxisState :=
            { aid := st.cnt,
              ylabel := some (ld.rightYAxis.getD ""),
              ylim_set := ld.ylim_right,
              y_percent := ld.rightYAxis_percentage }
          let h := mkHandle (st.cnt + 1) line_id ld xs ys
          .ok { ax := st.ax,
                secondary := st.secondary ++ [plotOnAxis ax2 h],
                handles := dict_set st.handles line_id h,
                cnt := st.cnt + 2 }
        else
          let h := mkHandle st.cnt line_id ld xs ys
          .ok { st with ax := plotOnAxis st.ax h,
                        handles := dict_set st.handles line_id h,
                        cnt := st.cnt + 1 }

/-- The whole line loop of one subplot. -/
def drawLines (cfg : List (Nat × LineData)) (st : DrawState) :
    List Nat → Except PlotErr DrawState
  | [] => .ok st
  | i :: rest =>
    match drawOne cfg st i with
    | .error e => .error e
    | .ok st1 => drawLines cfg st1 rest

/-- The span-shading step: capture `get_ylim`, `fill_between` when both
`xspan` and `yspan` are configured (filling where `yspan > 0`), then
re-apply the captured limits (the `set_ylim` is unconditional in the
source). -/
def shadePhase (ax : AxisState) (pd : PlotData) : AxisState :=
  let p := get_ylim ax
  let ax1 := match pd.xspan, pd.yspan with
    | some xs, some ys => fill_between ax xs p.1 p.2 (ys.map (fun v => decide (v > 0)))
    | _, _ => ax
  set_ylim ax1 p

/-- The list comprehension `[handles[i] for i in plot_data['legend']]`
(a missing handle raises `KeyError`). -/
def mapLookupHandles (handles : List (Nat × Line2DH)) :
    List Nat → Except PlotErr (List Line2DH)
  | [] => .ok []
  | i :: rest =>
    match alist_get handles i with
    | none => .error (.keyError (toString i))
    | some h =>
      match mapLookupHandles handles rest with
      | .error e => .error e
      | .ok t => .ok (h :: t)

/-- The legend step: when a `legend` list is configured, call
`ax.legend(handles=..., loc=..., ncol=...)`; when `bbox_to_anchor` is also
configured, a second `ax.legend(bbox_to_anchor=...)` call replaces the
legend with the axis's default handles and default placement. -/
def legendPhase (ax : AxisState) (handles : List (Nat × Line2DH)) (pd : PlotData) :
    Except PlotErr AxisState :=
  match pd.legend with
  | none => .ok ax
  | some ids =>
    match mapLookupHandles handles ids with
    | .error e => .error e
    | .ok hl =>
      let ls1 : LegendState :=
        { handles := hl, loc := pd.legends_position.getD "best",
          ncol := pd.lgdncol.getD 1, bbox := none }
      let ax1 := { ax with legend := some ls1 }
      match pd.bbox_to_anchor with
      | none => .ok ax1
      | some b =>
        let ls2 : LegendState :=
          { handles := defaultHandles ax1, loc := "best", ncol := 1, bbox := some b }
        .ok { ax1 with legend := some ls2 }

/-- The rendered outcome of one subplot: its (mutated) primary axis and the
secondary axes created for it. -/
structure SubplotResult where
  ax : AxisState
  secondary : List AxisState
deriving DecidableEq

/-- One iteration of the subplot loop body on a given primary axis. -/
def renderSubplot (ax0 : AxisState) (pd : PlotData) (cfg : List (Nat × LineData))
    (cnt : Nat) : Except PlotErr (SubplotResult × Nat) :=
  let ax := applyPlotSettings ax0 pd
  match drawLines cfg ⟨ax, [], [], cnt⟩ pd.line with
  | .error e => .error e
  | .ok st =>
    let ax1 := shadePhase st.ax pd
    match legendPhase ax1 st.handles pd with
    | .error e => .error e
    | .ok ax2 => .ok (⟨ax2, st.secondary⟩, st.cnt)

/-- The subplot loop `for plot_id, plot_data in plot_cfg.items()`:
fetch `axs.flatten()[plot_id-1]`, render, and write the mutated axis back
into the grid. -/
def renderSubplots (axes : List AxisState) (plot_cfg : List (Nat × PlotData))
    (cfg : List (Nat × LineData)) (cnt : Nat) :
    Except PlotErr (List AxisState × List (Nat × SubplotResult) × Nat) :=
  match plot_cfg with
  | [] => .ok (axes, [], cnt)
  | (plot_id, pd) :: rest =>
    match pyIndex axes ((plot_id : Int) - 1) with
    | none => .error .indexError
    | some ax0 =>
      match renderSubplot ax0 pd cfg cnt with
      | .error e => .error e
      | .ok (res, cnt1) =>
        let axes1 := pyIndexSet axes ((plot_id : Int) - 1) res.ax
        match renderSubplots axes1 rest cfg cnt1 with
        | .error e => .error e
        | .ok (axesF, rs, cntF) => .ok (axesF, (plot_id, res) :: rs, cntF)

/-! ## dataPlot.py : figure legend and Output Writer -/

/-- Collect `axs.flatten()[legend_id-1].get_legend_handles_labels()` for
each configured subplot index. -/
def collectFigLegend (axes : List AxisState) :
    List Nat → Except PlotErr (List (List Line2DH × List String))
  | [] => .ok []
  | i :: rest =>
    match pyIndex axes ((i : Int) - 1) with
    | none => .error .indexError
    | some ax =>
      match collectFigLegend axes rest with
      | .error e => .error e
      | .ok t => .ok (get_legend_handles_labels ax :: t)

/-- The figure-level legend step guarded by `fig_cfg.get('legend_id', False)`
truthiness; concatenates the per-subplot handle and label lists in order. -/
def figureLegend (fig_cfg : FigCfg) (axes : List AxisState) :
    Except PlotErr (Option (List Line2DH × List String)) :=
  if truthyList fig_cfg.legend_id then
    match collectFigLegend axes (fig_cfg.legend_id.getD []) with
    | .error e => .error e
    | .ok pairs => .ok (some ((pairs.map Prod.fst).flatten, (pairs.map Prod.snd).flatten))
  else .ok none

/-- The Output Writer: `plt.savefig(file_path + filename + '.' + fig_format)`,
and when the format is not `'png'`, a second `plt.savefig` of the same
path/filename with extension `.png`.  Returns the written paths in order. -/
def savePhase (fig_cfg : FigCfg) : List String :=
  let full_path := fig_cfg.file_path.getD "./" ++ fig_cfg.filename.getD "new_fig"
    ++ "." ++ fig_cfg.fig_format.getD "png"
  if fig_cfg.fig_format.getD "png" ≠ "png" then
    [full_path, fig_cfg.file_path.getD "./" ++ fig_cfg.filename.getD "new_fig" ++ ".png"]
  else [full_path]

/-- The observable outcome of a successful `plot_line2D` call. -/
structure PlotResult where
  axes : List AxisState
  results : List (Nat × SubplotResult)
  figLegend : Option (List Line2DH × List String)
  saved : List String
deriving DecidableEq

/-- `plot_line2D(fig_cfg, plot_cfg, line_cfg)` from dataPlot.py: build the
figure, resolve all line data (raising before anything is drawn on error),
render every subplot, build the optional figure legend, save. -/
def plot_line2D (fs : FileSys) (fig_cfg : FigCfg) (plot_cfg : List (Nat × PlotData))
    (line_cfg : List (Nat × LineData)) : Except PlotErr PlotResult :=
  let figst := subplots_ajdust fig_cfg
  match resolveLines fs line_cfg with
  | .error e => .error e
  | .ok (cfg1, _st) =>
    match renderSubplots figst.axes plot_cfg cfg1 (figst.rows * figst.cols) with
    | .error e => .error e
    | .ok (axes1, results, _cnt) =>
      match figureLegend fig_cfg axes1 with
      | .error e => .error e
      | .ok fl => .ok ⟨axes1, results, fl, savePhase fig_cfg⟩

/-! ## Predicates used in the specification theorems -/

/-- Whether the line identified by `i` is configured to go to a secondary
y-axis: its entry exists and its `rightYAxis` value is truthy. -/
def rightOn (cfg : List (Nat × LineData)) (i : Nat) : Bool :=
  match alist_get cfg i with
  | some ld => truthyStr ld.rightYAxis
  | none => false

/-- Invariant of the `handles` dictionary during the line loop: every
recorded handle is keyed by its own line identifier and was drawn on the
subplot's primary axis or on one of its secondary axes. -/
def handlesInv (handles : List (Nat × Line2DH)) (ax : AxisState)
    (sec : List AxisState) : Prop :=
  ∀ p ∈ handles, p.2.line_id = p.1 ∧
    (p.2 ∈ ax.drawnLines ∨ ∃ a ∈ sec, p.2 ∈ a.drawnLines)

/-- A data reference is resolvable: absent, or naming an existing file and
an existing column of it. -/
def refOkB (fs : FileSys) : Option (String × String) → Bool
  | some (p, c) => ((fs p).bind (fun t => alist_get t c)).isSome
  | none => true

/-- All keys of the resolver's `data_file_names` dictionary are integers
(they are always the counter `nfiles`). -/
def intKeysOnly (st : ResolverState) : Prop :=
  ∀ p ∈ st.data_file_names, ∃ n, p.1 = PyKey.int n

/-- Whether a subplot render succeeded. -/
def renderOk (r : Except PlotErr (SubplotResult × Nat)) : Bool :=
  match r with
  | .ok _ => true
  | .error _ => false

/-- The number of secondary axes of a subplot run (`none` on error). -/
def secondaryCount (r : Except PlotErr (SubplotResult × Nat)) : Option Nat :=
  match r with
  | .ok (res, _) => some res.secondary.length
  | .error _ => none

/-- The number of lines drawn on the primary axis of a subplot run. -/
def primaryDrawnCount (r : Except PlotErr (SubplotResult × Nat)) : Option Nat :=
  match r with
  | .ok (res, _) => some res.ax.drawnLines.length
  | .error _ => none

/-! ## Concrete inputs used by witnesses and counterexamples -/

/-- The reads log of a resolver run (`[]` when the run raised). -/
def readsOf (r : Except PlotErr (List (Nat × LineData) × ResolverState)) : List String :=
  match r with
  | .ok (_, st) => st.reads
  | .error _ => []

/-- A one-file storage layer: `d.csv` with columns `x` and `y`. -/
def fsD : FileSys :=
  fun p => if p = "d.csv" then some [("x", [0, 1]), ("y", [10, 20])] else none

/-- One line whose x and y data both reference `d.csv`. -/
def cfgSameFile : List (Nat × LineData) :=
  [(1, { xdata := some ("d.csv", "x"), ydata := some ("d.csv", "y") })]

/-- Two lines: the first fully referenced, the second missing both `xdata`
and `xdata_array`. -/
def cfgMissingX : List (Nat × LineData) :=
  [(1, { xdata := some ("d.csv", "x"), ydata := some ("d.csv", "y") }),
   (2, { ydata := some ("d.csv", "y") })]

/-- Two resolved lines with labels `A` and `B`. -/
def cfgTwoLines : List (Nat × LineData) :=
  [(1, { xdata_array := some [0], ydata_array := some [0], label := some "A" }),
   (2, { xdata_array := some [0], ydata_array := some [1], label := some "B" })]

/-- A subplot drawing both lines whose legend lists only line 1 and which
also configures a `bbox_to_anchor`. -/
def pdLegendAnchor : PlotData :=
  { line := [1, 2], legend := some [1], bbox_to_anchor := some (0, 0) }

/-- The same subplot without the anchor. -/
def pdLegendPlain : PlotData := { line := [1, 2], legend := some [2, 1] }

/-- The `line_id`s of the handles of the rendered legend of a subplot run
(`none` when the run raised or no legend was built). -/
def legendLineIds (r : Except PlotErr (SubplotResult × Nat)) : Option (List Nat) :=
  match r with
  | .ok (res, _) =>
    match res.ax.legend with
    | some ls => some (ls.handles.map (fun h => h.line_id))
    | none => none
  | .error _ => none

/-- One line declaring `rightYAxis` with the empty-string label. -/
def cfgEmptyRight : List (Nat × LineData) :=
  [(1, { xdata_array := some [0], ydata_array := some [0], rightYAxis := some "" })]

/-- Two lines declaring non-empty `rightYAxis` labels. -/
def cfgTwoRight : List (Nat × LineData) :=
  [(1, { xdata_array := some [0], ydata_array := some [0], rightYAxis := some "r1" }),
   (2, { xdata_array := some [0], ydata_array := some [5], rightYAxis := some "r2" })]

/-! ## Theorems -/

/-- When the requested end is at least the file length, the slice stop ends
up at or beyond the end of the file, so the whole tail from `lstart` is
taken. -/
theorem processRange_of_length_le (lines : List String) (lstart l_end lstep : Nat)
    (h : lines.length ≤ l_end) :
    processRange lines lstart l_end lstep =
      if lstep > 1 then everyNth (lines.drop lstart) lstep else lines.drop lstart := by
  rcases Nat.eq_zero_or_pos lines.length with h0 | hpos
  · have hnil : lines = [] := List.length_eq_zero.mp h0
    subst hnil
    simp [processRange]
  · by_cases hc : (lines.length : Int) < (l_end : Int)
    · have hb : (((lines.length : Int) - 1 + 1).toNat) = lines.length := by omega
      simp only [processRange, if_pos hc, hb, List.take_length]
    · have he : lines.length = l_end := by omega
      have hb : (((l_end : Int)) + 1).toNat = l_end + 1 := by omega
      have ht : lines.take (l_end + 1) = lines :=
        List.take_of_length_le (by omega)
      simp only [processRange, if_neg hc, hb, ht]

/-- Requesting exactly through the last line (`end = length - 1`) also
takes the whole tail from `lstart`. -/
theorem processRange_last (lines : List String) (lstart lstep : Nat) :
    processRange lines lstart (lines.length - 1) lstep =
      if lstep > 1 then everyNth (lines.drop lstart) lstep else lines.drop lstart := by
  rcases Nat.eq_zero_or_pos lines.length with h0 | hpos
  · have hnil : lines = [] := List.length_eq_zero.mp h0
    subst hnil
    simp [processRange]
  · have hc : ¬ ((lines.length : Int) < ((lines.length - 1 : Nat) : Int)) := by omega
    have hb : ((((lines.length - 1 : Nat) : Int)) + 1).toNat = lines.length := by omega
    simp only [processRange, if_neg hc, hb, List.take_length]

/-- C3: for every range descriptor whose end index is at least the number
of lines of the source file, the extractor copies exactly what it would
copy with the end clamped to the file's last line index — lines from
`start` through the last available line (every line when the step is 1) —
and, the result being a total function of the inputs, no out-of-bounds
error is raised. -/
theorem C3_end_clamped (lines : List String) (lstart l_end lstep : Nat)
    (h : lines.length ≤ l_end) :
    processRange lines lstart l_end lstep
      = processRange lines lstart (lines.length - 1) lstep
    ∧ (lstep ≤ 1 → processRange lines lstart l_end lstep = lines.drop lstart) := by
  constructor
  · rw [processRange_of_length_le lines lstart l_end lstep h, processRange_last]
  · intro hstep
    rw [processRange_of_length_le lines lstart l_end lstep h, if_neg (by omega)]

/-- Witness for C3 at a concrete input: a 3-line file with requested end 7. -/
theorem C3_end_clamped_witness :
    ["l0", "l1", "l2"].length ≤ 7
    ∧ (processRange ["l0", "l1", "l2"] 1 7 1
        = processRange ["l0", "l1", "l2"] 1 2 1
      ∧ (1 ≤ 1 → processRange ["l0", "l1", "l2"] 1 7 1 = ["l0", "l1", "l2"].drop 1)) :=
  ⟨by decide, C3_end_clamped ["l0", "l1", "l2"] 1 7 1 (by decide)⟩

/-- C10: a descriptor whose start exceeds its (possibly clamped) end
contributes an empty slice: nothing is appended for it, no error is
raised, and a trailing such descriptor leaves the contents produced by the
earlier descriptors unchanged (the append-mode open still creates the
destination when it does not exist). -/
theorem C10_start_beyond_end (lines : List String) (lstart l_end lstep : Nat)
    (fsys : String → Option (List String)) (dest : Option (List String))
    (descs : List RangeDesc) (d : RangeDesc)
    (hd : fsys d.csv_file_name = some lines)
    (hfields : d.line_start = lstart ∧ d.line_end = l_end ∧ d.line_step.getD 1 = lstep)
    (h : (if (lines.length : Int) < (l_end : Int)
            then (lines.length : Int) - 1 else (l_end : Int)) < (lstart : Int)) :
    processRange lines lstart l_end lstep = []
    ∧ combine_csv_files fsys dest (descs ++ [d])
        = (combine_csv_files fsys dest descs).map (fun a => some (a.getD [])) := by
  have hmain : processRange lines lstart l_end lstep = [] := by
    have hdrop : ∀ b : Nat, (b : Int) ≤ (lstart : Int) → (lines.take b).drop lstart = [] := by
      intro b hb
      apply List.drop_eq_nil_of_le
      have := List.length_take b lines
      omega
    by_cases hc : (lines.length : Int) < (l_end : Int)
    · rw [if_pos hc] at h
      have hb : (((lines.length : Int) - 1 + 1).toNat : Int) ≤ (lstart : Int) := by omega
      simp only [processRange, if_pos hc]
      rw [hdrop _ hb]
      split <;> simp [everyNth]
    · rw [if_neg hc] at h
      have hb : ((((l_end : Int)) + 1).toNat : Int) ≤ (lstart : Int) := by omega
      simp only [processRange, if_neg hc]
      rw [hdrop _ hb]
      split <;> simp [everyNth]
  refine ⟨hmain, ?_⟩
  unfold combine_csv_files
  rw [List.foldlM_append]
  rcases hres : List.foldlM _ (none : Option (List String)) descs with e | acc
  · rfl
  · simp only [List.foldlM_cons, List.foldlM_nil, hd, hfields.1, hfields.2.1, hfields.2.2,
      hmain, List.append_nil, Except.map]
    rfl

/-- Witness for C10: start 5 against a 3-line file, after one earlier
descriptor. -/
theorem C10_start_beyond_end_witness :
    processRange ["l0", "l1", "l2"] 5 2 1 = []
    ∧ combine_csv_files (fsAB ["l0", "l1", "l2"] ["b0"]) none
        ([⟨"b.csv", 0, 0, none⟩] ++ [⟨"a.csv", 5, 2, none⟩])
        = (combine_csv_files (fsAB ["l0", "l1", "l2"] ["b0"]) none [⟨"b.csv", 0, 0, none⟩]).map
            (fun a => some (a.getD [])) :=
  C10_start_beyond_end ["l0", "l1", "l2"] 5 2 1 (fsAB ["l0", "l1", "l2"] ["b0"]) none
    [⟨"b.csv", 0, 0, none⟩] ⟨"a.csv", 5, 2, none⟩ (by decide) (by decide) (by decide)

/-- C6: `combine_csv_files` overwrites any pre-existing destination (the
result does not depend on `dest`), processes descriptors in order, a step
greater than 1 keeps every step-th line of the sliced range, and the
round-trip example holds: ranges `('a.csv',0,2)` then `('b.csv',0,1)` over
a 5-line `a.csv` and a 3-line `b.csv` yield exactly the first 3 lines of
`a.csv` followed by the first 2 lines of `b.csv` — 5 lines. -/
theorem C6_combine_order_example (dest : Option (List String)) (A B : List String)
    (hA : A.length = 5) (hB : B.length = 3) :
    (∀ lines lstart l_end k, 2 ≤ k →
       processRange lines lstart l_end k = everyNth (processRange lines lstart l_end 1) k)
    ∧ combine_csv_files (fsAB A B) dest [⟨"a.csv", 0, 2, none⟩, ⟨"b.csv", 0, 1, none⟩]
        = .ok (some (A.take 3 ++ B.take 2))
    ∧ (A.take 3 ++ B.take 2).length = 5 := by
  refine ⟨?_, ?_, ?_⟩
  · intro lines lstart l_end k hk
    simp only [processRange, if_pos (by omega : k > 1), if_neg (by omega : ¬ (1 : Nat) > 1)]
  · have ha : fsAB A B "a.csv" = some A := by simp [fsAB]
    have hb : fsAB A B "b.csv" = some B := by
      unfold fsAB
      rw [if_neg (by decide), if_pos rfl]
    have hpa : processRange A 0 2 1 = A.take 3 := by
      simp only [processRange, if_neg (by omega : ¬ (1 : Nat) > 1),
        if_neg (by rw [hA]; omega : ¬ ((A.length : Int) < ((2 : Nat) : Int)))]
      norm_num [List.drop_zero]
      rfl
    have hpb : processRange B 0 1 1 = B.take 2 := by
      simp only [processRange, if_neg (by omega : ¬ (1 : Nat) > 1),
        if_neg (by rw [hB]; omega : ¬ ((B.length : Int) < ((1 : Nat) : Int)))]
      norm_num [List.drop_zero]
      rfl
    simp only [combine_csv_files, List.foldlM_cons, List.foldlM_nil, ha, hb]
    show (Except.ok (some ((none : Option (List String)).getD [] ++ processRange A 0 2 1)) >>=
      (fun acc => Except.ok (some (acc.getD [] ++ processRange B 0 1 1))) : Except String _) >>= pure
        = _
    rw [hpa, hpb]
    rfl
  · simp only [List.length_append, List.length_take, hA, hB]
    decide

/-- Witness for C6 on concrete 5- and 3-line files. -/
theorem C6_combine_order_example_witness :
    combine_csv_files (fsAB ["a0", "a1", "a2", "a3", "a4"] ["b0", "b1", "b2"])
        (some ["old"]) [⟨"a.csv", 0, 2, none⟩, ⟨"b.csv", 0, 1, none⟩]
      = .ok (some (["a0", "a1", "a2", "a3", "a4"].take 3 ++ ["b0", "b1", "b2"].take 2))
    ∧ (["a0", "a1", "a2", "a3", "a4"].take 3 ++ ["b0", "b1", "b2"].take 2).length = 5 :=
  (C6_combine_order_example (some ["old"]) ["a0", "a1", "a2", "a3", "a4"] ["b0", "b1", "b2"]
    (by decide) (by decide)).2

/-- C5: for every subplot, the primary axis's y-limits captured after the
line-drawing loop equal the y-limits in effect after the span-shading step
completes, whether or not an x-span and y-span are configured: the step
re-applies the captured limits unconditionally, so shading never changes
the visible y-range. -/
theorem C5_shade_restores_ylim (ax : AxisState) (pd : PlotData) :
    get_ylim (shadePhase ax pd) = get_ylim ax := by
  rfl

/-- C7: the Output Writer composes `file_path + filename + '.' + format`
with defaults `./`, `new_fig`, `png`; a non-`png` format additionally
writes a `.png` companion at the same path and filename, and the `png`
format writes only the single `.png` file.  A successful `plot_line2D`
call writes exactly these paths. -/
theorem C7_save_paths (fig_cfg : FigCfg) :
    (fig_cfg.fig_format.getD "png" ≠ "png" →
      savePhase fig_cfg =
        [fig_cfg.file_path.getD "./" ++ fig_cfg.filename.getD "new_fig"
          ++ "." ++ fig_cfg.fig_format.getD "png",
         fig_cfg.file_path.getD "./" ++ fig_cfg.filename.getD "new_fig" ++ ".png"])
    ∧ (fig_cfg.fig_format.getD "png" = "png" →
      savePhase fig_cfg =
        [fig_cfg.file_path.getD "./" ++ fig_cfg.filename.getD "new_fig" ++ ".png"])
    ∧ (∀ fs plot_cfg line_cfg r, plot_line2D fs fig_cfg plot_cfg line_cfg = .ok r →
        r.saved = savePhase fig_cfg) := by
  refine ⟨?_, ?_, ?_⟩
  · intro h
    simp only [savePhase, if_pos h]
  · intro h
    simp only [savePhase, h]
    rw [if_neg (fun hc => hc rfl), String.append_assoc]
    rfl
  · intro fs plot_cfg line_cfg r h
    simp only [plot_line2D] at h
    rcases h1 : resolveLines fs line_cfg with e | p
    · simp only [h1] at h
      exact Except.noConfusion h
    · obtain ⟨cfg1, st⟩ := p
      simp only [h1] at h
      rcases h2 : renderSubplots (subplots_ajdust fig_cfg).axes plot_cfg cfg1
          ((subplots_ajdust fig_cfg).rows * (subplots_ajdust fig_cfg).cols) with e | q
      · simp only [h2] at h
        exact Except.noConfusion h
      · obtain ⟨axes1, results, cnt⟩ := q
        simp only [h2] at h
        rcases h3 : figureLegend fig_cfg axes1 with e | fl
        · simp only [h3] at h
          exact Except.noConfusion h
        · simp only [h3] at h
          cases h
          rfl

/-- Witness for C7: format `pdf` produces the pdf and its png companion;
the default configuration produces only `./new_fig.png`. -/
theorem C7_save_paths_witness :
    savePhase { fig_format := some "pdf" } = ["./new_fig.pdf", "./new_fig.png"]
    ∧ savePhase {} = ["./new_fig.png"] :=
  ⟨(C7_save_paths { fig_format := some "pdf" }).1 (by decide),
   (C7_save_paths {}).2.1 (by decide)⟩

/-- C8: when the corresponding keys are absent from the figure
configuration, `subplots_ajdust` uses rows=1, cols=1, width=6, height=9,
font size=10, left=0.125, right=0.9, bottom=0.05, top=0.9, wspace=0.2,
hspace=0.2 (the code default height is 9, not the documented 6). -/
theorem C8_builder_defaults (cfg : FigCfg) :
    (cfg.num_rows = none → (subplots_ajdust cfg).rows = 1)
    ∧ (cfg.num_cols = none → (subplots_ajdust cfg).cols = 1)
    ∧ (cfg.width = none → (subplots_ajdust cfg).width = 6)
    ∧ (cfg.height = none → (subplots_ajdust cfg).height = 9)
    ∧ (cfg.fontsize = none → (subplots_ajdust cfg).fontsize = 10)
    ∧ (cfg.left = none → (subplots_ajdust cfg).left = 0.125)
    ∧ (cfg.right = none → (subplots_ajdust cfg).right = 0.9)
    ∧ (cfg.bottom = none → (subplots_ajdust cfg).bottom = 0.05)
    ∧ (cfg.top = none → (subplots_ajdust cfg).top = 0.9)
    ∧ (cfg.wspace = none → (subplots_ajdust cfg).wspace = 0.2)
    ∧ (cfg.hspace = none → (subplots_ajdust cfg).hspace = 0.2) := by
  refine ⟨?_, ?_, ?_, ?_, ?_, ?_, ?_, ?_, ?_, ?_, ?_⟩ <;>
    (intro h; simp [subplots_ajdust, h])

/-- Witness for C8 at the empty configuration. -/
theorem C8_builder_defaults_witness :
    (subplots_ajdust {}).rows = 1 ∧ (subplots_ajdust {}).cols = 1
    ∧ (subplots_ajdust {}).width = 6 ∧ (subplots_ajdust {}).height = 9
    ∧ (subplots_ajdust {}).fontsize = 10 ∧ (subplots_ajdust {}).left = 0.125
    ∧ (subplots_ajdust {}).right = 0.9 ∧ (subplots_ajdust {}).bottom = 0.05
    ∧ (subplots_ajdust {}).top = 0.9 ∧ (subplots_ajdust {}).wspace = 0.2
    ∧ (subplots_ajdust {}).hspace = 0.2 :=
  ⟨(C8_builder_defaults {}).1 rfl, (C8_builder_defaults {}).2.1 rfl,
   (C8_builder_defaults {}).2.2.1 rfl, (C8_builder_defaults {}).2.2.2.1 rfl,
   (C8_builder_defaults {}).2.2.2.2.1 rfl, (C8_builder_defaults {}).2.2.2.2.2.1 rfl,
   (C8_builder_defaults {}).2.2.2.2.2.2.1 rfl, (C8_builder_defaults {}).2.2.2.2.2.2.2.1 rfl,
   (C8_builder_defaults {}).2.2.2.2.2.2.2.2.1 rfl,
   (C8_builder_defaults {}).2.2.2.2.2.2.2.2.2.1 rfl,
   (C8_builder_defaults {}).2.2.2.2.2.2.2.2.2.2 rfl⟩

/-- C1 (code bug): on a single line whose x data and y data both reference
`d.csv`, the resolver calls `pd.read_csv('d.csv')` twice, not once.  The
cache-membership test `path not in data_file_names` probes the
dictionary's keys, which are the integers `1..nfiles`, so a string path is
never found and every reference re-reads its file — contradicting the
source's own comment that a file used by multiple lines is read once. -/
theorem C1_cache_never_hits :
    readsOf (resolveLines fsD cfgSameFile) = ["d.csv", "d.csv"]
    ∧ ¬ readsOf (resolveLines fsD cfgSameFile) = ["d.csv"] := by
  decide

/-- A successful dictionary lookup yields an entry of the list. -/
theorem alist_get_mem {α β : Type} [DecidableEq α] :
    ∀ (d : List (α × β)) (k : α) (v : β), alist_get d k = some v → (k, v) ∈ d := by
  intro d
  induction d with
  | nil => intro k v h; exact Option.noConfusion h
  | cons p t ih =>
    intro k v h
    obtain ⟨k2, v2⟩ := p
    by_cases hk : k2 = k
    · subst hk
      rw [alist_get, if_pos rfl] at h
      cases h
      exact List.mem_cons_self _ _
    · rw [alist_get, if_neg hk] at h
      exact List.mem_cons_of_mem _ (ih k v h)

/-- An entry of `dict_set d k v` is an old entry or the new pair. -/
theorem dict_set_mem {α β : Type} [DecidableEq α] :
    ∀ (d : List (α × β)) (k : α) (v : β) (p : α × β),
      p ∈ dict_set d k v → p ∈ d ∨ p = (k, v) := by
  intro d
  induction d with
  | nil =>
    intro k v p h
    rw [dict_set] at h
    rcases List.mem_singleton.mp h with h1
    exact Or.inr h1
  | cons q t ih =>
    intro k v p h
    obtain ⟨k2, v2⟩ := q
    by_cases hk : k2 = k
    · subst hk
      rw [dict_set, if_pos rfl] at h
      rcases List.mem_cons.mp h with h1 | h1
      · exact Or.inr h1
      · exact Or.inl (List.mem_cons_of_mem _ h1)
    · rw [dict_set, if_neg hk] at h
      rcases List.mem_cons.mp h with h1 | h1
      · exact Or.inl (h1 ▸ List.mem_cons_self _ _)
      · rcases ih k v p h1 with h2 | h2
        · exact Or.inl (List.mem_cons_of_mem _ h2)
        · exact Or.inr h2

/-- Case analysis of one line-loop iteration: on success it either created
exactly one fresh secondary axis carrying exactly the one new line
(`rightYAxis` truthy), or drew on the primary axis (not truthy); the
counter strictly grows either way. -/
theorem drawOne_cases (cfg : List (Nat × LineData)) (st : DrawState) (i : Nat)
    (st1 : DrawState) (h : drawOne cfg st i = .ok st1) :
    (rightOn cfg i = true ∧
      ∃ ax2 : AxisState, ax2.aid = st.cnt ∧ ax2.drawnLines.length = 1 ∧
        st1.secondary = st.secondary ++ [ax2] ∧ st1.cnt = st.cnt + 2 ∧ st1.ax = st.ax)
    ∨ (rightOn cfg i = false ∧ st1.secondary = st.secondary ∧ st1.cnt = st.cnt + 1) := by
  rcases hg : alist_get cfg i with _ | ld
  · simp only [drawOne, hg] at h
    exact Except.noConfusion h
  · rcases hx : ld.xdata_array with _ | xs
    · simp only [drawOne, hg, hx] at h
      exact Except.noConfusion h
    · rcases hy : ld.ydata_array with _ | ys
      · simp only [drawOne, hg, hx, hy] at h
        exact Except.noConfusion h
      · by_cases hr : truthyStr ld.rightYAxis = true
        · left
          refine ⟨by simp only [rightOn, hg]; exact hr, ?_⟩
          simp only [drawOne, hg, hx, hy, if_pos hr] at h
          cases h
          refine ⟨_, ?_, ?_, rfl, rfl, rfl⟩ <;> rfl
        · right
          refine ⟨by simp only [rightOn, hg]; exact Bool.of_not_eq_true hr, ?_⟩
          simp only [drawOne, hg, hx, hy, if_neg hr] at h
          cases h
          exact ⟨rfl, rfl⟩

/-- Through the whole line loop: the created secondary axes have strictly
increasing fresh identifiers below the counter, each carries exactly one
drawn line, and their number equals the number of loop identifiers whose
line is configured for a secondary axis. -/
theorem drawLines_secondary_spec (cfg : List (Nat × LineData)) :
    ∀ (l : List Nat) (st st1 : DrawState),
    drawLines cfg st l = .ok st1 →
    ((st.secondary.map (fun a => a.aid)).Pairwise (· < ·) ∧
      (∀ a ∈ st.secondary, a.aid < st.cnt ∧ a.drawnLines.length = 1)) →
    ((st1.secondary.map (fun a => a.aid)).Pairwise (· < ·) ∧
      (∀ a ∈ st1.secondary, a.aid < st1.cnt ∧ a.drawnLines.length = 1)) ∧
    st1.secondary.length = st.secondary.length + l.countP (rightOn cfg) := by
  intro l
  induction l with
  | nil =>
    intro st st1 h hinv
    rw [drawLines] at h
    cases h
    simpa using hinv
  | cons i rest ih =>
    intro st st1 h hinv
    rw [drawLines] at h
    rcases h0 : drawOne cfg st i with e | stm
    · rw [h0] at h
      exact Except.noConfusion h
    · rw [h0] at h
      rcases drawOne_cases cfg st i stm h0 with
        ⟨hr, ax2, ha, hlen1, hsec, hcnt, _⟩ | ⟨hr, hsec, hcnt⟩
      · have hinvm : (stm.secondary.map (fun a => a.aid)).Pairwise (· < ·) ∧
            ∀ a ∈ stm.secondary, a.aid < stm.cnt ∧ a.drawnLines.length = 1 := by
          constructor
          · rw [hsec, List.map_append, List.pairwise_append]
            refine ⟨hinv.1, by simp, ?_⟩
            intro x hx y hy
            rcases List.mem_map.mp hx with ⟨a, hamem, rfl⟩
            rcases List.mem_map.mp hy with ⟨b, hbmem, rfl⟩
            rcases List.mem_singleton.mp hbmem with rfl
            rw [ha]
            exact (hinv.2 a hamem).1
          · intro a hamem
            rw [hsec] at hamem
            rcases List.mem_append.mp hamem with h1 | h1
            · exact ⟨by rw [hcnt]; exact Nat.lt_of_lt_of_le (hinv.2 a h1).1 (by omega),
                (hinv.2 a h1).2⟩
            · rcases List.mem_singleton.mp h1 with rfl
              exact ⟨by rw [hcnt, ha]; omega, hlen1⟩
        have hlenm : stm.secondary.length = st.secondary.length + 1 := by
          rw [hsec]
          simp
        have hcp : List.countP (rightOn cfg) (i :: rest)
            = List.countP (rightOn cfg) rest + 1 := by
          simp [List.countP_cons, hr]
        have hres := ih stm st1 h hinvm
        refine ⟨hres.1, ?_⟩
        rw [hres.2, hlenm, hcp]
        omega
      · have hinvm : (stm.secondary.map (fun a => a.aid)).Pairwise (· < ·) ∧
            ∀ a ∈ stm.secondary, a.aid < stm.cnt ∧ a.drawnLines.length = 1 := by
          rw [hsec]
          exact ⟨hinv.1, fun a hm =>
            ⟨by rw [hcnt]; exact Nat.lt_of_lt_of_le (hinv.2 a hm).1 (by omega),
             (hinv.2 a hm).2⟩⟩
        have hcp : List.countP (rightOn cfg) (i :: rest)
            = List.countP (rightOn cfg) rest := by
          simp [List.countP_cons, hr]
        have hres := ih stm st1 h hinvm
        refine ⟨hres.1, ?_⟩
        rw [hres.2, hsec, hcp]

/-- C9 (amended): for every successfully rendered subplot, the renderer
creates one brand-new `twinx` secondary y-axis per line of the subplot's
line list whose `rightYAxis` value is truthy (a non-empty label); the
secondary axes are pairwise distinct and each carries exactly the one line
drawn on it, so they are never shared or reused. -/
theorem C9_twinx_per_line_amended (ax0 : AxisState) (pd : PlotData)
    (cfg : List (Nat × LineData)) (cnt : Nat) (res : SubplotResult) (cnt' : Nat)
    (hok : renderSubplot ax0 pd cfg cnt = .ok (res, cnt')) :
    res.secondary.length = pd.line.countP (rightOn cfg)
    ∧ (res.secondary.map (fun a => a.aid)).Nodup
    ∧ ∀ a ∈ res.secondary, a.drawnLines.length = 1 := by
  rcases hD : drawLines cfg ⟨applyPlotSettings ax0 pd, [], [], cnt⟩ pd.line with e | st
  · simp only [renderSubplot, hD] at hok
    exact Except.noConfusion hok
  · simp only [renderSubplot, hD] at hok
    rcases hL : legendPhase (shadePhase st.ax pd) st.handles pd with e | ax2
    · simp only [hL] at hok
      exact Except.noConfusion hok
    · simp only [hL] at hok
      cases hok
      have hspec := drawLines_secondary_spec cfg pd.line
        ⟨applyPlotSettings ax0 pd, [], [], cnt⟩ st hD
        ⟨List.Pairwise.nil, fun a ha => absurd ha (List.not_mem_nil a)⟩
      refine ⟨by simpa using hspec.2, ?_, fun a ha => (hspec.1.2 a ha).2⟩
      exact hspec.1.1.imp (fun hlt => Nat.ne_of_lt hlt)

/-- C9 counterexample: a line whose `rightYAxis` key is set to the empty
string gets no secondary axis at all — the truthiness test sends it to the
primary axis — refuting the claim that every line declaring a
`rightYAxis` label is drawn on a brand-new secondary axis. -/
theorem C9_twinx_empty_label_cex :
    cfgEmptyRight.countP (fun e => e.2.rightYAxis.isSome) = 1
    ∧ secondaryCount (renderSubplot {} { line := [1] } cfgEmptyRight 0) = some 0
    ∧ primaryDrawnCount (renderSubplot {} { line := [1] } cfgEmptyRight 0) = some 1 := by
  decide

/-- Witness for C9 on two lines with non-empty `rightYAxis` labels. -/
theorem C9_twinx_per_line_amended_witness :
    ∃ res cnt', renderSubplot {} { line := [1, 2] } cfgTwoRight 0 = .ok (res, cnt')
      ∧ res.secondary.length = ([1, 2] : List Nat).countP (rightOn cfgTwoRight)
      ∧ (res.secondary.map (fun a => a.aid)).Nodup
      ∧ ∀ a ∈ res.secondary, a.drawnLines.length = 1 := by
  rcases hE : renderSubplot {} { line := [1, 2] } cfgTwoRight 0 with e | p
  · have hs : renderOk (renderSubplot {} { line := [1, 2] } cfgTwoRight 0) = true := by decide
    rw [hE] at hs
    exact Bool.noConfusion hs
  · obtain ⟨res, cnt'⟩ := p
    exact ⟨res, cnt', rfl, C9_twinx_per_line_amended {} _ cfgTwoRight 0 res cnt' hE⟩

/-- One line-loop iteration preserves the handles invariant: the new
handle is keyed by its line identifier and lives on the axis it was drawn
on. -/
theorem drawOne_handlesInv (cfg : List (Nat × LineData)) (st : DrawState) (i : Nat)
    (st1 : DrawState) (h : drawOne cfg st i = .ok st1)
    (hinv : handlesInv st.handles st.ax st.secondary) :
    handlesInv st1.handles st1.ax st1.secondary := by
  rcases hg : alist_get cfg i with _ | ld
  · simp only [drawOne, hg] at h
    exact Except.noConfusion h
  · rcases hx : ld.xdata_array with _ | xs
    · simp only [drawOne, hg, hx] at h
      exact Except.noConfusion h
    · rcases hy : ld.ydata_array with _ | ys
      · simp only [drawOne, hg, hx, hy] at h
        exact Except.noConfusion h
      · by_cases hr : truthyStr ld.rightYAxis = true
        · simp only [drawOne, hg, hx, hy, if_pos hr] at h
          cases h
          intro p hp
          rcases dict_set_mem _ _ _ p hp with hold | hnew
          · rcases hinv p hold with ⟨h1, h2⟩
            refine ⟨h1, ?_⟩
            rcases h2 with h2 | ⟨a, ha, h3⟩
            · exact Or.inl h2
            · exact Or.inr ⟨a, List.mem_append_left _ ha, h3⟩
          · subst hnew
            refine ⟨rfl, Or.inr ⟨_, List.mem_append_right _ (List.mem_singleton_self _), ?_⟩⟩
            simp [plotOnAxis]
        · simp only [drawOne, hg, hx, hy, if_neg hr] at h
          cases h
          intro p hp
          rcases dict_set_mem _ _ _ p hp with hold | hnew
          · rcases hinv p hold with ⟨h1, h2⟩
            refine ⟨h1, ?_⟩
            rcases h2 with h2 | h2
            · exact Or.inl (List.mem_append_left _ h2)
            · exact Or.inr h2
          · subst hnew
            exact ⟨rfl, Or.inl (by simp [plotOnAxis])⟩

/-- The whole line loop preserves the handles invariant. -/
theorem drawLines_handlesInv (cfg : List (Nat × LineData)) :
    ∀ (l : List Nat) (st st1 : DrawState),
    drawLines cfg st l = .ok st1 →
    handlesInv st.handles st.ax st.secondary →
    handlesInv st1.handles st1.ax st1.secondary := by
  intro l
  induction l with
  | nil =>
    intro st st1 h hinv
    rw [drawLines] at h
    cases h
    exact hinv
  | cons i rest ih =>
    intro st st1 h hinv
    rw [drawLines] at h
    rcases h0 : drawOne cfg st i with e | stm
    · rw [h0] at h
      exact Except.noConfusion h
    · rw [h0] at h
      exact ih stm st1 h (drawOne_handlesInv cfg st i stm h0 hinv)

/-- The span-shading step never touches the drawn artists of the axis. -/
theorem shadePhase_drawnLines (ax : AxisState) (pd : PlotData) :
    (shadePhase ax pd).drawnLines = ax.drawnLines := by
  rcases hx : pd.xspan with _ | xs <;> rcases hy : pd.yspan with _ | ys <;>
    simp only [shadePhase, set_ylim, fill_between, hx, hy] <;>
    first
      | rfl
      | (split <;> rfl)

/-- The legend list comprehension returns the looked-up handles in list
order: their line identifiers are exactly the requested ones, and every
returned handle is an entry of the handles dictionary. -/
theorem mapLookupHandles_spec (handles : List (Nat × Line2DH))
    (hkey : ∀ p ∈ handles, p.2.line_id = p.1) :
    ∀ (ids : List Nat) (hl : List Line2DH),
    mapLookupHandles handles ids = .ok hl →
    hl.map (fun h => h.line_id) = ids ∧ ∀ h ∈ hl, ∃ i, (i, h) ∈ handles := by
  intro ids
  induction ids with
  | nil =>
    intro hl h
    rw [mapLookupHandles] at h
    cases h
    exact ⟨rfl, fun h hm => absurd hm (List.not_mem_nil h)⟩
  | cons i rest ih =>
    intro hl h
    rw [mapLookupHandles] at h
    rcases hg : alist_get handles i with _ | hd
    · rw [hg] at h
      exact Except.noConfusion h
    · rw [hg] at h
      rcases hrec : mapLookupHandles handles rest with e | t
      · rw [hrec] at h
        exact Except.noConfusion h
      · rw [hrec] at h
        cases h
        have hmem := alist_get_mem handles i hd hg
        rcases ih t hrec with ⟨h1, h2⟩
        constructor
        · simp only [List.map_cons, h1]
          rw [hkey (i, hd) hmem]
        · intro x hx
          rcases List.mem_cons.mp hx with rfl | hx2
          · exact ⟨i, hmem⟩
          · exact h2 x hx2

/-- C2 (amended): for every successfully rendered subplot carrying a
legend line-identifier list and no `bbox_to_anchor`, the rendered legend
holds exactly the handles of the listed identifiers, in the list's order,
at the configured position and column count; every legend handle is a line
drawn on this subplot's own primary or secondary axes, so two subplots
with disjoint legend lists cannot share or exchange legend entries. -/
theorem C2_legend_exact_amended (ax0 : AxisState) (pd : PlotData)
    (cfg : List (Nat × LineData)) (cnt : Nat) (res : SubplotResult) (cnt' : Nat)
    (ids : List Nat) (hok : renderSubplot ax0 pd cfg cnt = .ok (res, cnt'))
    (hleg : pd.legend = some ids) (hbb : pd.bbox_to_anchor = none) :
    ∃ ls : LegendState, res.ax.legend = some ls
      ∧ ls.handles.map (fun h => h.line_id) = ids
      ∧ ls.loc = pd.legends_position.getD "best"
      ∧ ls.ncol = pd.lgdncol.getD 1
      ∧ ls.bbox = none
      ∧ ∀ h ∈ ls.handles, h ∈ res.ax.drawnLines ∨ ∃ a ∈ res.secondary, h ∈ a.drawnLines := by
  rcases hD : drawLines cfg ⟨applyPlotSettings ax0 pd, [], [], cnt⟩ pd.line with e | st
  · simp only [renderSubplot, hD] at hok
    exact Except.noConfusion hok
  · simp only [renderSubplot, hD] at hok
    rcases hL : legendPhase (shadePhase st.ax pd) st.handles pd with e | ax2
    · simp only [hL] at hok
      exact Except.noConfusion hok
    · simp only [hL] at hok
      cases hok
      rcases hM : mapLookupHandles st.handles ids with e | hl
      · simp only [legendPhase, hleg, hM] at hL
        exact Except.noConfusion hL
      · simp only [legendPhase, hleg, hM, hbb] at hL
        cases hL
        have hinv := drawLines_handlesInv cfg pd.line
          ⟨applyPlotSettings ax0 pd, [], [], cnt⟩ st hD
          (fun p hp => absurd hp (List.not_mem_nil p))
        have hkey : ∀ p ∈ st.handles, p.2.line_id = p.1 := fun p hp => (hinv p hp).1
        rcases mapLookupHandles_spec st.handles hkey ids hl hM with ⟨h1, h2⟩
        refine ⟨_, rfl, h1, rfl, rfl, rfl, ?_⟩
        intro h hm
        rcases h2 h hm with ⟨i, hmem⟩
        rcases (hinv (i, h) hmem).2 with hax | hsec
        · left
          show h ∈ (shadePhase st.ax pd).drawnLines
          rw [shadePhase_drawnLines]
          exact hax
        · exact Or.inr hsec

/-- C2 counterexample: with a `bbox_to_anchor` configured, the second
`ax.legend(bbox_to_anchor=...)` call rebuilds the legend from the axis's
default handles, so the legend of a subplot drawing lines 1 and 2 with
legend list `[1]` ends up holding both lines' handles, not exactly the
listed one. -/
theorem C2_legend_bbox_cex :
    pdLegendAnchor.legend = some [1]
    ∧ legendLineIds (renderSubplot {} pdLegendAnchor cfgTwoLines 0) = some [1, 2]
    ∧ ¬ legendLineIds (renderSubplot {} pdLegendAnchor cfgTwoLines 0) = some [1] := by
  decide

/-- Witness for C2 on a subplot drawing lines 1 and 2 with legend list
`[2, 1]` and no anchor. -/
theorem C2_legend_exact_amended_witness :
    ∃ res cnt', renderSubplot {} pdLegendPlain cfgTwoLines 0 = .ok (res, cnt')
      ∧ ∃ ls : LegendState, res.ax.legend = some ls
        ∧ ls.handles.map (fun h => h.line_id) = [2, 1]
        ∧ ls.loc = "best" ∧ ls.ncol = 1 ∧ ls.bbox = none
        ∧ ∀ h ∈ ls.handles, h ∈ res.ax.drawnLines ∨ ∃ a ∈ res.secondary, h ∈ a.drawnLines := by
  rcases hE : renderSubplot {} pdLegendPlain cfgTwoLines 0 with e | p
  · have hs : renderOk (renderSubplot {} pdLegendPlain cfgTwoLines 0) = true := by decide
    rw [hE] at hs
    exact Bool.noConfusion hs
  · obtain ⟨res, cnt'⟩ := p
    exact ⟨res, cnt', rfl,
      C2_legend_exact_amended {} pdLegendPlain cfgTwoLines 0 res cnt' [2, 1] hE rfl rfl⟩

/-- A string path is never a key of a dictionary whose keys are all
integers, so the resolver's cache-membership test fails. -/
theorem dictHasKey_str_false (st : ResolverState) (hkeys : intKeysOnly st)
    (path : String) : dictHasKey st.data_file_names (PyKey.str path) = false := by
  rcases hA : alist_get st.data_file_names (PyKey.str path) with _ | v
  · simp [dictHasKey, hA]
  · exfalso
    rcases hkeys (PyKey.str path, v) (alist_get_mem _ _ _ hA) with ⟨n, hn⟩
    exact PyKey.noConfusion hn

/-- Setting an integer key keeps all keys integers. -/
theorem intKeys_dict_set (d : List (PyKey × String)) (n : Nat) (path : String)
    (hkeys : ∀ p ∈ d, ∃ m, p.1 = PyKey.int m) :
    ∀ p ∈ dict_set d (PyKey.int n) path, ∃ m, p.1 = PyKey.int m := by
  intro p hp
  rcases dict_set_mem d (PyKey.int n) path p hp with h1 | h1
  · exact hkeys p h1
  · exact ⟨n, by rw [h1]⟩

/-- The x branch of the resolver succeeds on an entry that is not missing
its x reference: either the precomputed array is present, or the (file,
column) reference resolves; the bookkeeping keys stay integers and the y
fields of the entry are untouched. -/
theorem resolve_xdata_ok (fs : FileSys) (st : ResolverState) (ld : LineData)
    (hkeys : intKeysOnly st) (href : refOkB fs ld.xdata = true)
    (harr : ld.xdata = none → ld.xdata_array.isSome) :
    ∃ st1 ld1, resolve_xdata fs st ld = .ok (st1, ld1)
      ∧ intKeysOnly st1 ∧ ld1.ydata = ld.ydata ∧ ld1.ydata_array = ld.ydata_array := by
  rcases hx : ld.xdata with _ | pc
  · rcases hxa : ld.xdata_array with _ | c
    · rw [hx] at harr
      rw [hxa] at harr
      exact absurd (harr rfl) (by simp)
    · refine ⟨st, ld, ?_, hkeys, rfl, rfl⟩
      simp only [resolve_xdata, hx, hxa]
  · obtain ⟨path, colName⟩ := pc
    rw [hx] at href
    simp only [refOkB] at href
    rcases hf : fs path with _ | tbl
    · rw [hf] at href
      exact absurd href (by simp)
    · rw [hf] at href
      rcases hc : alist_get tbl colName with _ | c
      · simp [Option.some_bind, hc] at href
      · refine ⟨{ data_files := dict_set st.data_files (PyKey.int (st.nfiles + 1)) tbl,
                  data_file_names := dict_set st.data_file_names (PyKey.int (st.nfiles + 1)) path,
                  nfiles := st.nfiles + 1,
                  reads := st.reads ++ [path] },
                { ld with xdata_array := some c }, ?_, ?_, rfl, rfl⟩
        · simp only [resolve_xdata, hx, dictHasKey_str_false st hkeys path, Bool.false_eq_true,
            if_false, pdReadCsv, hf, tableCol, hc]
        · exact intKeys_dict_set st.data_file_names (st.nfiles + 1) path hkeys

/-- The y branch, before a y-missing entry, raises the configuration
error. -/
theorem resolve_xdata_missingErr (fs : FileSys) (st : ResolverState) (ld : LineData)
    (h1 : ld.xdata = none) (h2 : ld.xdata_array = none) :
    resolve_xdata fs st ld
      = .error (.valueError "xdata or xdata_array is missing in line_cfg") := by
  simp only [resolve_xdata, h1, h2]

/-- The y branch of the resolver succeeds on an entry not missing its y
reference. -/
theorem resolve_ydata_ok (fs : FileSys) (st : ResolverState) (ld : LineData)
    (hkeys : intKeysOnly st) (href : refOkB fs ld.ydata = true)
    (harr : ld.ydata = none → ld.ydata_array.isSome) :
    ∃ st1 ld1, resolve_ydata fs st ld = .ok (st1, ld1) ∧ intKeysOnly st1 := by
  rcases hy : ld.ydata with _ | pc
  · rcases hya : ld.ydata_array with _ | c
    · rw [hy] at harr
      rw [hya] at harr
      exact absurd (harr rfl) (by simp)
    · refine ⟨st, ld, ?_, hkeys⟩
      simp only [resolve_ydata, hy, hya]
  · obtain ⟨path, colName⟩ := pc
    rw [hy] at href
    simp only [refOkB] at href
    rcases hf : fs path with _ | tbl
    · rw [hf] at href
      exact absurd href (by simp)
    · rw [hf] at href
      rcases hc : alist_get tbl colName with _ | c
      · simp [Option.some_bind, hc] at href
      · refine ⟨{ data_files := dict_set st.data_files (PyKey.int (st.nfiles + 1)) tbl,
                  data_file_names := dict_set st.data_file_names (PyKey.int (st.nfiles + 1)) path,
                  nfiles := st.nfiles + 1,
                  reads := st.reads ++ [path] },
                { ld with ydata_array := some c }, ?_, ?_⟩
        · simp only [resolve_ydata, hy, dictHasKey_str_false st hkeys path, Bool.false_eq_true,
            if_false, pdReadCsv, hf, tableCol, hc]
        · exact intKeys_dict_set st.data_file_names (st.nfiles + 1) path hkeys

theorem resolve_ydata_missingErr (fs : FileSys) (st : ResolverState) (ld : LineData)
    (h1 : ld.ydata = none) (h2 : ld.ydata_array = none) :
    resolve_ydata fs st ld
      = .error (.valueError "ydata or ydata_array is missing in line_cfg") := by
  simp only [resolve_ydata, h1, h2]

/-- If every present data reference of the configuration resolves, but
some entry is missing both its x reference and x array (or both its y
reference and y array), the resolver loop raises a `ValueError`. -/
theorem resolveGo_missing_err (fs : FileSys) :
    ∀ (cfg : List (Nat × LineData)) (st : ResolverState), intKeysOnly st →
    (∀ e ∈ cfg, refOkB fs e.2.xdata = true ∧ refOkB fs e.2.ydata = true) →
    (∃ e ∈ cfg, (e.2.xdata = none ∧ e.2.xdata_array = none)
       ∨ (e.2.ydata = none ∧ e.2.ydata_array = none)) →
    ∃ msg, resolveLinesGo fs st cfg = .error (.valueError msg) := by
  intro cfg
  induction cfg with
  | nil =>
    intro st _ _ hex
    rcases hex with ⟨e, he, _⟩
    exact absurd he (List.not_mem_nil e)
  | cons p t ih =>
    intro st hkeys hwf hex
    obtain ⟨i, ld⟩ := p
    by_cases hx : ld.xdata = none ∧ ld.xdata_array = none
    · refine ⟨"xdata or xdata_array is missing in line_cfg", ?_⟩
      simp only [resolveLinesGo, resolveLine,
        resolve_xdata_missingErr fs st ld hx.1 hx.2]
    · have harr : ld.xdata = none → ld.xdata_array.isSome := by
        intro h0
        rcases hcase : ld.xdata_array with _ | c
        · exact absurd ⟨h0, hcase⟩ hx
        · simp
      obtain ⟨st1, ld1, hres, hk1, hyd, hyda⟩ :=
        resolve_xdata_ok fs st ld hkeys (hwf (i, ld) (List.mem_cons_self _ _)).1 harr
      by_cases hy : ld.ydata = none ∧ ld.ydata_array = none
      · refine ⟨"ydata or ydata_array is missing in line_cfg", ?_⟩
        simp only [resolveLinesGo, resolveLine, hres,
          resolve_ydata_missingErr fs st1 ld1 (hyd.trans hy.1) (hyda.trans hy.2)]
      · have harr2 : ld1.ydata = none → ld1.ydata_array.isSome := by
          rw [hyd, hyda]
          intro h0
          rcases hcase : ld.ydata_array with _ | c
          · exact absurd ⟨h0, hcase⟩ hy
          · simp
        have href2 : refOkB fs ld1.ydata = true := by
          rw [hyd]
          exact (hwf (i, ld) (List.mem_cons_self _ _)).2
        obtain ⟨st2, ld2, hres2, hk2⟩ := resolve_ydata_ok fs st1 ld1 hk1 href2 harr2
        have hext : ∃ e ∈ t, (e.2.xdata = none ∧ e.2.xdata_array = none)
            ∨ (e.2.ydata = none ∧ e.2.ydata_array = none) := by
          rcases hex with ⟨e, he, hcase⟩
          rcases List.mem_cons.mp he with rfl | he2
          · rcases hcase with h0 | h0
            · exact absurd h0 hx
            · exact absurd h0 hy
          · exact ⟨e, he2, hcase⟩
        obtain ⟨msg, hgo⟩ := ih st2 hk2 (fun e he => hwf e (List.mem_cons_of_mem _ he)) hext
        refine ⟨msg, ?_⟩
        simp only [resolveLinesGo, resolveLine, hres, hres2, hgo]

/-- C4: if any line entry lacks both `xdata` and `xdata_array` (or both
`ydata` and `ydata_array`), and every reference that is present resolves,
`plot_line2D` fails with the configuration `ValueError` raised by the
resolver loop — which runs before the subplot loop, so nothing is drawn
and nothing is saved (the error short-circuits the whole call). -/
theorem C4_missing_ref_valueerror (fs : FileSys) (fig_cfg : FigCfg)
    (plot_cfg : List (Nat × PlotData)) (line_cfg : List (Nat × LineData))
    (hwf : ∀ e ∈ line_cfg, refOkB fs e.2.xdata = true ∧ refOkB fs e.2.ydata = true)
    (hmiss : ∃ e ∈ line_cfg, (e.2.xdata = none ∧ e.2.xdata_array = none)
       ∨ (e.2.ydata = none ∧ e.2.ydata_array = none)) :
    ∃ msg, plot_line2D fs fig_cfg plot_cfg line_cfg = .error (.valueError msg) := by
  obtain ⟨msg, hgo⟩ := resolveGo_missing_err fs line_cfg {}
    (fun p hp => absurd hp (List.not_mem_nil p)) hwf hmiss
  refine ⟨msg, ?_⟩
  simp only [plot_line2D, resolveLines, hgo]

/-- Witness for C4: two lines over `d.csv`, the second missing both
`xdata` and `xdata_array`. -/
theorem C4_missing_ref_valueerror_witness :
    (∀ e ∈ cfgMissingX, refOkB fsD e.2.xdata = true ∧ refOkB fsD e.2.ydata = true)
    ∧ (∃ e ∈ cfgMissingX, (e.2.xdata = none ∧ e.2.xdata_array = none)
        ∨ (e.2.ydata = none ∧ e.2.ydata_array = none))
    ∧ ∃ msg, plot_line2D fsD {} [] cfgMissingX = .error (.valueError msg) :=
  ⟨by decide, by decide,
   C4_missing_ref_valueerror fsD {} [] cfgMissingX (by decide) (by decide)⟩
